import Mathlib

/-!
Shallow embedding of the hybrid classroom-quiz synchronization core: the Hub
relay server (server.js) and the client-side connection-mode controller
(hybrid-data-service.js) together with the remote-store wrapper
(firebase-config.js).

JavaScript Map objects are modelled as insertion-ordered association lists:
setting an existing key updates it in place, a new key is appended at the
end.  JavaScript Set objects are modelled as duplicate-free lists in
insertion order.  Promises are modelled by explicit outcome parameters, and
Date.now() by an explicit clock argument.
-/

/-- One quiz response record: the payload stored by the Hub under
(questionId, userId) and cached by the client. -/
structure Response where
  questionId : String
  answer : String
  reason : String
  userId : String
  displayName : String
  timestamp : Nat
  deriving DecidableEq, Repr

/-- JavaScript Map.prototype.set on an insertion-ordered association list:
an existing key is replaced in place, a new key is appended at the end. -/
def mapSet [DecidableEq α] : List (α × β) → α → β → List (α × β)
  | [], k, v => [(k, v)]
  | p :: rest, k, v => if p.1 = k then (k, v) :: rest else p :: mapSet rest k v

/-- JavaScript Map.prototype.get: the value at the first matching key. -/
def mapGet [DecidableEq α] : List (α × β) → α → Option β
  | [], _ => none
  | p :: rest, k => if p.1 = k then some p.2 else mapGet rest k

/-- JavaScript Set.prototype.add: append the element if it is absent. -/
def setAdd (s : List String) (x : String) : List String :=
  if x ∈ s then s else s ++ [x]

/-- JavaScript Set.prototype.delete: remove the element. -/
def setDelete (s : List String) (x : String) : List String :=
  s.filter (fun y => y != x)

/-- Store a response under (questionId, userId) in a nested map, creating the
inner map when the question has none yet — the common write pattern of both
the Hub session store and the client localCache. -/
def cacheInsert (cache : List (String × List (String × Response)))
    (q uid : String) (r : Response) : List (String × List (String × Response)) :=
  mapSet cache q (mapSet ((mapGet cache q).getD []) uid r)

/-- Per-connection client info tracked by the Hub (the values of the
connectedClients map); userId and displayName start out null. -/
structure ClientInfo where
  id : String
  userId : Option String
  displayName : Option String
  deriving DecidableEq, Repr

/-- The Hub's session state (sessionData plus connectedClients); connections
are keyed by an abstract socket handle. -/
structure HubState where
  connections : List (Nat × ClientInfo)
  activeUsers : List String
  responses : List (String × List (String × Response))
  deriving DecidableEq, Repr

/-- The Hub-to-client messages produced by the modelled handlers. -/
inductive ServerMsg where
  | welcome (clientId : String) (serverTime : Nat) (connectedClients : Nat)
  | bulkUpdate (responses : List Response)
  | userJoined (userId : String) (displayName : String) (activeUsers : Nat)
  | identified (success : Bool) (activeUsers : List String)
  | peerResponse (r : Response)
  | responseConfirmed (questionId : String) (success : Bool)
  | syncResponse (responses : List Response) (activeUsers : List String) (timestamp : Nat)
  | userDisconnected (userId : String) (displayName : Option String) (activeUsers : Nat)
  deriving DecidableEq, Repr

/-- Whether a message is the identified acknowledgment. -/
def ServerMsg.isIdentified : ServerMsg → Bool
  | .identified _ _ => true
  | _ => false

/-- The broadcast helper of server.js: send the message to every connected
socket except the sender; when no sender is passed (senderWs defaults to
null) no socket is excluded. -/
def broadcast (conns : List Nat) (senderWs : Option Nat) (m : ServerMsg) :
    List (Nat × ServerMsg) :=
  (conns.filter (fun c => senderWs != some c)).map (fun c => (c, m))

/-- The payload of a submit_response client message; the timestamp field is
optional on the wire. -/
structure SubmitMsg where
  questionId : String
  answer : String
  reason : String
  userId : String
  displayName : String
  timestamp : Option Nat
  deriving DecidableEq, Repr

/-- The JavaScript expression timestamp || Date.now(): an absent or zero
(falsy) timestamp defaults to the server receipt time. -/
def tsOrNow (t : Option Nat) (now : Nat) : Nat :=
  match t with
  | none => now
  | some v => if v = 0 then now else v

/-- The Response record the Hub stores and rebroadcasts for a submit_response
message received at time now. -/
def storedResponse (m : SubmitMsg) (now : Nat) : Response :=
  ⟨m.questionId, m.answer, m.reason, m.userId, m.displayName, tsOrNow m.timestamp now⟩

/-- The identify case of handleClientMessage: record userId and displayName
on the connection, add userId to activeUsers, broadcast user_joined (note the
source calls broadcast without a sender argument here, so no connection is
excluded), then reply identified to the sender. -/
def handleIdentify (s : HubState) (ws : Nat) (uid dn : String) :
    HubState × List (Nat × ServerMsg) :=
  let conns := s.connections.map (fun p =>
    if p.1 = ws then (p.1, { p.2 with userId := some uid, displayName := some dn }) else p)
  let users := setAdd s.activeUsers uid
  let out := broadcast (conns.map (fun p => p.1)) none (.userJoined uid dn users.length)
      ++ [(ws, .identified true users)]
  ({ s with connections := conns, activeUsers := users }, out)

/-- The submit_response case of handleClientMessage: store the response under
(questionId, userId), unconditionally overwriting any prior value, broadcast
peer_response to every other connection, and confirm to the sender. -/
def handleSubmitResponse (s : HubState) (ws : Nat) (m : SubmitMsg) (now : Nat) :
    HubState × List (Nat × ServerMsg) :=
  let responses := cacheInsert s.responses m.questionId m.userId (storedResponse m now)
  let out := broadcast (s.connections.map (fun p => p.1)) (some ws)
        (.peerResponse (storedResponse m now))
      ++ [(ws, .responseConfirmed m.questionId true)]
  ({ s with responses := responses }, out)

/-- Flatten the nested responses map in iteration order (outer insertion
order, then inner insertion order), as both the connection-time bulk_update
and the request_sync reply do. -/
def flattenResponses (rs : List (String × List (String × Response))) : List Response :=
  rs.flatMap (fun q => q.2.map (fun u => u.2))

/-- The request_sync case of handleClientMessage: reply sync_response to the
sender with every stored response and the active-user list; the session state
is not touched. -/
def handleRequestSync (s : HubState) (ws : Nat) (now : Nat) :
    HubState × List (Nat × ServerMsg) :=
  (s, [(ws, .syncResponse (flattenResponses s.responses) s.activeUsers now)])

/-- The wss connection handler: register the client, send welcome, and, when
any responses are stored, proactively send this client a bulk_update holding
every stored response (no request_sync is needed to trigger it). -/
def handleConnection (s : HubState) (ws : Nat) (clientId : String) (now : Nat) :
    HubState × List (Nat × ServerMsg) :=
  let s1 : HubState :=
    { s with connections := s.connections ++ [(ws, ⟨clientId, none, none⟩)] }
  let syncOut :=
    if s.responses.length > 0 then
      let existing := flattenResponses s.responses
      if existing.length > 0 then [(ws, ServerMsg.bulkUpdate existing)] else []
    else []
  (s1, (ws, ServerMsg.welcome clientId now s.activeUsers.length) :: syncOut)

/-- The ws close handler: when the connection had an identified userId,
delete it from activeUsers and broadcast user_disconnected to the others;
always remove the connection entry; stored responses are untouched. -/
def handleClose (s : HubState) (ws : Nat) : HubState × List (Nat × ServerMsg) :=
  match mapGet s.connections ws with
  | none => (s, [])
  | some ci =>
    match ci.userId with
    | some uid =>
      let users := setDelete s.activeUsers uid
      let out := broadcast (s.connections.map (fun p => p.1)) (some ws)
        (.userDisconnected uid ci.displayName users.length)
      ({ s with activeUsers := users,
                connections := s.connections.filter (fun p => p.1 != ws) }, out)
    | none =>
      ({ s with connections := s.connections.filter (fun p => p.1 != ws) }, [])

/-- Fold a sequence of submit_response messages, each with its sender socket
and receipt time, through the Hub state. -/
def runSubmits (s : HubState) : List (Nat × SubmitMsg × Nat) → HubState
  | [] => s
  | e :: rest => runSubmits (handleSubmitResponse s e.1 e.2.1 e.2.2).1 rest

/-- Look up the stored response for a (questionId, userId) key in a nested
responses map. -/
def lookupResponse (rs : List (String × List (String × Response)))
    (q u : String) : Option Response :=
  mapGet ((mapGet rs q).getD []) u

/-- The client connection mode (HybridDataService.connectionMode). -/
inductive ConnMode where
  | cloud
  | localRelay
  | offline
  deriving DecidableEq, Repr

/-- A signed-in user as returned by FirebaseConfig.getCurrentUser. -/
structure AuthUser where
  uid : String
  displayName : String
  deriving DecidableEq, Repr

/-- The client-side state of HybridDataService relevant to the claims:
connection mode, whether wsConnection is open, the reconnect counter, and the
two localCache maps (own responses and peer data). -/
structure HDSState where
  connectionMode : ConnMode
  wsConnected : Bool
  wsReconnectAttempts : Nat
  responses : List (String × List (String × Response))
  peerData : List (String × List (String × Response))
  deriving DecidableEq, Repr

/-- HybridDataService.maxReconnectAttempts. -/
def maxReconnectAttempts : Nat := 5

/-- HybridDataService.reconnectDelay in milliseconds. -/
def reconnectDelay : Nat := 2000

/-- An external write action attempted by saveResponse: a Firestore write in
cloud mode, or a submit_response send on the socket in local mode. -/
inductive TransportAct where
  | cloudWrite (questionId answer reason : String)
  | wsSend (r : Response)
  deriving DecidableEq, Repr

/-- HybridDataService.saveResponse: with no signed-in user, return false at
once; otherwise construct the Response from the local clock and identity,
write it into localCache.responses first, then attempt the transport write
for the current mode.  cloudOk is the resolved value of
FirebaseConfig.saveQuizResponse in cloud mode.  Returns the new state, the
saved flag, and the transport actions attempted. -/
def saveResponse (s : HDSState) (user : Option AuthUser)
    (questionId answer reason : String) (now : Nat) (cloudOk : Bool) :
    HDSState × Bool × List TransportAct :=
  match user with
  | none => (s, false, [])
  | some u =>
    let rd : Response := ⟨questionId, answer, reason, u.uid, u.displayName, now⟩
    let s1 : HDSState :=
      { s with responses := cacheInsert s.responses questionId u.uid rd }
    match s.connectionMode with
    | .cloud => (s1, cloudOk, [.cloudWrite questionId answer reason])
    | .localRelay =>
      if s.wsConnected then (s1, true, [.wsSend rd]) else (s1, false, [])
    | .offline => (s1, true, [])

/-- The settled outcome of one promise under Promise.allSettled. -/
inductive Settled where
  | fulfilled (value : Bool)
  | rejected
  deriving DecidableEq, Repr

/-- Whether a settled outcome has status fulfilled. -/
def Settled.isFulfilled : Settled → Bool
  | .fulfilled _ => true
  | .rejected => false

/-- Whether a settled outcome has status rejected. -/
def Settled.isRejected : Settled → Bool
  | .fulfilled _ => false
  | .rejected => true

/-- FirebaseConfig.saveQuizResponse as a promise outcome: it resolves false
when no user is signed in, and otherwise resolves the outcome of the
Firestore writes (the oracle ok, keyed by questionId); every error is caught
inside the function, so the promise always fulfills and never rejects. -/
def saveQuizResponse (user : Option AuthUser) (ok : String → Bool)
    (questionId : String) : Settled :=
  match user with
  | none => .fulfilled false
  | some _ => .fulfilled (ok questionId)

/-- The responses syncLocalToCloud replays: every cached response whose inner
key equals the current user's uid, in cache iteration order. -/
def syncOps (cache : List (String × List (String × Response))) (uid : String) :
    List Response :=
  cache.flatMap (fun q => (q.2.filter (fun p => p.1 == uid)).map (fun p => p.2))

/-- HybridDataService.syncLocalToCloud: a no-op unless the mode is cloud and
a user is signed in; otherwise issue a saveQuizResponse for every cached own
response, await them all with Promise.allSettled, and report how many results
were fulfilled and how many rejected.  The cache is never modified.  Returns
the (unchanged) state, the list of responses written, and the report. -/
def syncLocalToCloud (s : HDSState) (user : Option AuthUser) (ok : String → Bool) :
    HDSState × List Response × Option (Nat × Nat) :=
  match user with
  | none => (s, [], none)
  | some u =>
    if s.connectionMode = ConnMode.cloud then
      let ops := syncOps s.responses u.uid
      let results := ops.map (fun r => saveQuizResponse (some u) ok r.questionId)
      let successful := (results.filter Settled.isFulfilled).length
      let failed := (results.filter Settled.isRejected).length
      (s, ops, some (successful, failed))
    else (s, [], none)

/-- The outcome of one WebSocket connection attempt: either the open event
fires, or an error or the 5-second timeout fires first. -/
inductive ConnectOutcome where
  | opened
  | failed
  deriving DecidableEq, Repr

/-- A message the client sends on the relay link right after it opens. -/
inductive ClientSend where
  | identify (userId displayName : String)
  | requestSync
  deriving DecidableEq, Repr

/-- HybridDataService.connectToLocalHub: when already connected, return true
at once; otherwise open a socket and wait for its outcome.  On open: switch
to local mode, reset wsReconnectAttempts to 0, send identify (when a user is
signed in, with displayName falling back to Anonymous) then request_sync, and
resolve true.  On error or timeout: reject (modelled as false); the attempt
counter is not touched on this path. -/
def connectToLocalHub (s : HDSState) (user : Option AuthUser)
    (outcome : ConnectOutcome) : HDSState × Bool × List ClientSend :=
  if s.wsConnected then (s, true, [])
  else
    match outcome with
    | .opened =>
      let sends :=
        (match user with
         | some u =>
           [ClientSend.identify u.uid
             (if u.displayName = "" then "Anonymous" else u.displayName)]
         | none => []) ++ [ClientSend.requestSync]
      ({ s with connectionMode := .localRelay, wsConnected := true,
                wsReconnectAttempts := 0 }, true, sends)
    | .failed => (s, false, [])

/-- The action scheduled by handleWebSocketDisconnect: a reconnect to the
last known hub address after a delay, or the terminal give-up that goes
offline and shows the reconnect-failed notice. -/
inductive ReconnectAct where
  | retry (delayMs : Nat) (target : Option String)
  | giveUpNotify
  deriving DecidableEq, Repr

/-- HybridDataService.handleWebSocketDisconnect: clear the socket; when in
local mode under the attempt cap, increment the counter and schedule a
reconnect to lastLocalHubIP after reconnectDelay times the new counter
value; at the cap, transition to offline and surface the reconnect-failed
notice. -/
def handleWebSocketDisconnect (s : HDSState) (lastLocalHubIP : Option String) :
    HDSState × Option ReconnectAct :=
  let s0 : HDSState := { s with wsConnected := false }
  if s0.connectionMode = ConnMode.localRelay then
    if s0.wsReconnectAttempts < maxReconnectAttempts then
      let s1 : HDSState := { s0 with wsReconnectAttempts := s0.wsReconnectAttempts + 1 }
      (s1, some (.retry (reconnectDelay * s1.wsReconnectAttempts) lastLocalHubIP))
    else
      ({ s0 with connectionMode := ConnMode.offline }, some .giveUpNotify)
  else (s0, none)

/-- The four-entry own-response cache of the reconcile scenario: one queued
response for each of four questions, all by user u1. -/
def cacheFour : List (String × List (String × Response)) :=
  [("Q1", [("u1", ⟨"Q1", "A", "", "u1", "Ann", 1⟩)]),
   ("Q2", [("u1", ⟨"Q2", "B", "", "u1", "Ann", 2⟩)]),
   ("Q3", [("u1", ⟨"Q3", "C", "", "u1", "Ann", 3⟩)]),
   ("Q4", [("u1", ⟨"Q4", "D", "", "u1", "Ann", 4⟩)])]

/-- A write oracle under which exactly the write for question Q4 fails. -/
def okButQ4 : String → Bool := fun q => q != "Q4"

/-- Setting a key makes it the value a lookup of that key returns. -/
theorem mapGet_mapSet_self [DecidableEq α] (m : List (α × β)) (k : α) (v : β) :
    mapGet (mapSet m k v) k = some v := by
  induction m with
  | nil => simp [mapSet, mapGet]
  | cons p rest ih =>
    by_cases h : p.1 = k
    · simp [mapSet, mapGet, h]
    · simp [mapSet, mapGet, h, ih]

/-- Looking up the key just stored by cacheInsert returns the new record. -/
theorem lookupResponse_cacheInsert (c : List (String × List (String × Response)))
    (q uid : String) (r : Response) :
    lookupResponse (cacheInsert c q uid r) q uid = some r := by
  simp [lookupResponse, cacheInsert, mapGet_mapSet_self]

/-- After one submit_response, the value stored under the message's key is
the record built from that message. -/
theorem lookupResponse_handleSubmitResponse (s : HubState) (ws : Nat)
    (m : SubmitMsg) (now : Nat) :
    lookupResponse (handleSubmitResponse s ws m now).1.responses
      m.questionId m.userId = some (storedResponse m now) := by
  simp [handleSubmitResponse, lookupResponse_cacheInsert]

/-- C1: for every nonempty sequence of submit_response messages that all
carry the same (questionId, userId) key, the value the Hub stores under that
key afterwards is the record of the last message applied, irrespective of the
timestamps carried by earlier or later submissions for that key — the Hub
never compares timestamps before overwriting. -/
theorem hub_submit_last_write_wins (s : HubState) (q u : String)
    (msgs : List (Nat × SubmitMsg × Nat)) (hne : msgs ≠ [])
    (hkey : ∀ e ∈ msgs, e.2.1.questionId = q ∧ e.2.1.userId = u) :
    lookupResponse (runSubmits s msgs).responses q u
      = some (storedResponse (msgs.getLast hne).2.1 (msgs.getLast hne).2.2) := by
  induction msgs generalizing s with
  | nil => exact absurd rfl hne
  | cons e rest ih =>
    cases rest with
    | nil =>
      have hk := hkey e (List.mem_cons_self e [])
      have h1 := lookupResponse_handleSubmitResponse s e.1 e.2.1 e.2.2
      rw [hk.1, hk.2] at h1
      simpa [runSubmits, List.getLast_singleton] using h1
    | cons e2 rest2 =>
      have hne2 : e2 :: rest2 ≠ ([] : List (Nat × SubmitMsg × Nat)) := by simp
      have hkey2 : ∀ x ∈ e2 :: rest2, x.2.1.questionId = q ∧ x.2.1.userId = u := by
        intro x hx
        exact hkey x (List.mem_cons_of_mem e hx)
      have hstep : runSubmits s (e :: e2 :: rest2)
          = runSubmits (handleSubmitResponse s e.1 e.2.1 e.2.2).1 (e2 :: rest2) := rfl
      rw [hstep, List.getLast_cons hne2]
      exact ih (handleSubmitResponse s e.1 e.2.1 e.2.2).1 hne2 hkey2

/-- C1 witness: the spec scenario — user u1 submits B with timestamp 100 and
then C with the older timestamp 50 for Q1; the Hub stores C, the last write
applied. -/
theorem hub_submit_last_write_wins_witness :
    lookupResponse (runSubmits ⟨[], [], []⟩
        [(1, ⟨"Q1", "B", "", "u1", "Ann", some 100⟩, 10),
         (1, ⟨"Q1", "C", "", "u1", "Ann", some 50⟩, 20)]).responses "Q1" "u1"
      = some ⟨"Q1", "C", "", "u1", "Ann", 50⟩ := by
  have h := hub_submit_last_write_wins ⟨[], [], []⟩ "Q1" "u1"
      [(1, ⟨"Q1", "B", "", "u1", "Ann", some 100⟩, 10),
       (1, ⟨"Q1", "C", "", "u1", "Ann", some 50⟩, 20)]
      (by decide) (by decide)
  exact h.trans (by decide)

/-- C3 counterexample: a user-initiated connectToLocalHub whose connection
attempt fails leaves the reconnect attempt counter at its prior value 3
rather than resetting it to 0 — the reset lives in the open handler only. -/
theorem connect_reset_counterexample :
    (connectToLocalHub ⟨ConnMode.offline, false, 3, [], []⟩ none
        ConnectOutcome.failed).1.wsReconnectAttempts = 3
    ∧ (3 : Nat) ≠ 0 := by
  decide

/-- C3 amended: whenever the socket is not already open, a user-initiated
connectToLocalHub whose connection succeeds (the open event fires) resets the
reconnect attempt counter to 0, for every prior counter value; a failed
attempt leaves the counter unchanged. -/
theorem connect_opened_resets_attempts (s : HDSState) (user : Option AuthUser)
    (h : s.wsConnected = false) :
    (connectToLocalHub s user ConnectOutcome.opened).1.wsReconnectAttempts = 0 := by
  simp [connectToLocalHub, h]

/-- C3 amended witness: a prior counter of 5 is reset to 0 by a successful
user-initiated connect. -/
theorem connect_opened_resets_attempts_witness :
    (connectToLocalHub ⟨ConnMode.offline, false, 5, [], []⟩ none
        ConnectOutcome.opened).1.wsReconnectAttempts = 0 :=
  connect_opened_resets_attempts ⟨ConnMode.offline, false, 5, [], []⟩ none rfl

/-- C10: with no signed-in user, saveResponse returns false, attempts no
transport action, and leaves the whole client state — both cache maps
included — unchanged. -/
theorem save_response_no_user (s : HDSState) (q a rsn : String) (now : Nat)
    (cloudOk : Bool) :
    saveResponse s none q a rsn now cloudOk = (s, false, []) := rfl

/-- C5: with a signed-in user, saveResponse writes the constructed Response
into the local cache in every mode and for every transport outcome (the cache
write is never rolled back), takes no transport action in offline mode, and
returns exactly the transport-level outcome: the Firestore result in cloud
mode, whether the socket is open in local mode, and true in offline mode. -/
theorem save_response_spec (s : HDSState) (u : AuthUser)
    (q a rsn : String) (now : Nat) (cloudOk : Bool) :
    (saveResponse s (some u) q a rsn now cloudOk).1
      = { s with
          responses := cacheInsert s.responses q u.uid ⟨q, a, rsn, u.uid, u.displayName, now⟩ }
    ∧ lookupResponse (saveResponse s (some u) q a rsn now cloudOk).1.responses q u.uid
      = some ⟨q, a, rsn, u.uid, u.displayName, now⟩
    ∧ (saveResponse s (some u) q a rsn now cloudOk).2.2
      = (match s.connectionMode with
         | ConnMode.cloud => [TransportAct.cloudWrite q a rsn]
         | ConnMode.localRelay =>
           if s.wsConnected then
             [TransportAct.wsSend ⟨q, a, rsn, u.uid, u.displayName, now⟩]
           else []
         | ConnMode.offline => [])
    ∧ (saveResponse s (some u) q a rsn now cloudOk).2.1
      = (match s.connectionMode with
         | ConnMode.cloud => cloudOk
         | ConnMode.localRelay => s.wsConnected
         | ConnMode.offline => true) := by
  cases hm : s.connectionMode <;>
    cases hws : s.wsConnected <;>
      simp [saveResponse, hm, hws, lookupResponse_cacheInsert]

/-- C6: while the controller is in local-relay mode, a socket close under the
5-attempt cap increments the counter to its new value n and schedules a
reconnect to the last known hub address after 2000 × n milliseconds — so the
counter never exceeds 5 — and once the cap is exhausted the controller
transitions to offline and surfaces the terminal reconnect-failed notice. -/
theorem reconnect_policy_spec (s : HDSState) (addr : Option String)
    (hmode : s.connectionMode = ConnMode.localRelay) :
    (s.wsReconnectAttempts < 5 →
      handleWebSocketDisconnect s addr
        = ({ s with wsConnected := false,
                    wsReconnectAttempts := s.wsReconnectAttempts + 1 },
           some (ReconnectAct.retry (2000 * (s.wsReconnectAttempts + 1)) addr))
      ∧ s.wsReconnectAttempts + 1 ≤ 5)
    ∧ (5 ≤ s.wsReconnectAttempts →
      handleWebSocketDisconnect s addr
        = ({ s with wsConnected := false, connectionMode := ConnMode.offline },
           some ReconnectAct.giveUpNotify)) := by
  constructor
  · intro h
    refine ⟨?_, by omega⟩
    simp [handleWebSocketDisconnect, hmode, maxReconnectAttempts, reconnectDelay, h]
  · intro h
    have h2 : ¬ s.wsReconnectAttempts < 5 := by omega
    simp [handleWebSocketDisconnect, hmode, maxReconnectAttempts, h2]

/-- C6 witness: at counter 4 a close schedules the fifth retry to the stored
address after 10000 ms; the counter reaches the cap of 5. -/
theorem reconnect_policy_spec_witness :
    handleWebSocketDisconnect ⟨ConnMode.localRelay, true, 4, [], []⟩
        (some "192.168.1.7:8080")
      = (⟨ConnMode.localRelay, false, 5, [], []⟩,
         some (ReconnectAct.retry 10000 (some "192.168.1.7:8080"))) := by
  have h := reconnect_policy_spec ⟨ConnMode.localRelay, true, 4, [], []⟩
      (some "192.168.1.7:8080") rfl
  exact ((h.1 (by decide)).1).trans (by decide)

/-- Every saveQuizResponse promise fulfills, so filtering the settled results
of a reconcile pass for fulfilled status keeps them all. -/
theorem length_filter_isFulfilled_map (l : List Response) (u : AuthUser)
    (ok : String → Bool) :
    ((l.map (fun r => saveQuizResponse (some u) ok r.questionId)).filter
        Settled.isFulfilled).length = l.length := by
  simp [saveQuizResponse, Settled.isFulfilled, List.filter_map, Function.comp]

/-- No saveQuizResponse promise rejects, so filtering the settled results of
a reconcile pass for rejected status leaves nothing. -/
theorem filter_isRejected_map (l : List Response) (u : AuthUser)
    (ok : String → Bool) :
    ((l.map (fun r => saveQuizResponse (some u) ok r.questionId)).filter
        Settled.isRejected) = [] := by
  simp [saveQuizResponse, Settled.isRejected, List.filter_map, Function.comp]

/-- C2 counterexample: with the four-entry cache queued and exactly the write
for Q4 failing, reconcile reports 4 successful and 0 failed — not 3 and 1 —
because saveQuizResponse catches its errors and fulfills with false, so
Promise.allSettled never observes a rejection. -/
theorem sync_counts_counterexample :
    (syncLocalToCloud ⟨ConnMode.cloud, false, 0, cacheFour, []⟩ (some ⟨"u1", "Ann"⟩)
        okButQ4).2.2 = some (4, 0)
    ∧ some ((4 : Nat), (0 : Nat)) ≠ some ((3 : Nat), (1 : Nat)) :=
  ⟨by decide, by decide⟩

/-- C2 amended: on reconcile in cloud mode with a signed-in user, a remote
write is issued for every cached Response belonging to the current identity,
no individual failure short-circuits the pass, the cache is left unchanged —
so a failed entry remains queued — and the reported counts are of fulfilled
versus rejected promises; because saveQuizResponse resolves false on a failed
write instead of rejecting, the report is (number of own responses, 0)
whatever the write outcomes: with 4 entries queued and 1 write failing it
reports successful=4, failed=0. -/
theorem sync_local_to_cloud_spec (s : HDSState) (u : AuthUser) (ok : String → Bool)
    (hmode : s.connectionMode = ConnMode.cloud) :
    (syncLocalToCloud s (some u) ok).1 = s
    ∧ (syncLocalToCloud s (some u) ok).2.1 = syncOps s.responses u.uid
    ∧ (syncLocalToCloud s (some u) ok).2.2
        = some ((syncOps s.responses u.uid).length, 0) := by
  refine ⟨?_, ?_, ?_⟩ <;>
    simp [syncLocalToCloud, hmode, length_filter_isFulfilled_map,
      filter_isRejected_map]

/-- C2 amended witness: the four-entry scenario with the Q4 write failing
evaluates to the report successful=4, failed=0. -/
theorem sync_local_to_cloud_spec_witness :
    (syncLocalToCloud ⟨ConnMode.cloud, false, 0, cacheFour, []⟩ (some ⟨"u1", "Ann"⟩)
        okButQ4).2.2 = some (4, 0) := by
  have h := sync_local_to_cloud_spec ⟨ConnMode.cloud, false, 0, cacheFour, []⟩
      ⟨"u1", "Ann"⟩ okButQ4 rfl
  exact h.2.2.trans (by decide)

/-- C9: request_sync leaves the Hub state untouched, replies to the sender
only, and is idempotent — two consecutive request_sync messages from the same
connection with no intervening writes produce sync_response replies carrying
the same responses and the same active-user list (only the reply timestamp is
the respective receipt time). -/
theorem hub_request_sync_spec (s : HubState) (ws : Nat) (t1 t2 : Nat) :
    (handleRequestSync s ws t1).1 = s
    ∧ (∀ p ∈ (handleRequestSync s ws t1).2, p.1 = ws)
    ∧ (handleRequestSync s ws t1).2
        = [(ws, ServerMsg.syncResponse (flattenResponses s.responses)
              s.activeUsers t1)]
    ∧ (handleRequestSync (handleRequestSync s ws t1).1 ws t2).2
        = [(ws, ServerMsg.syncResponse (flattenResponses s.responses)
              s.activeUsers t2)] := by
  refine ⟨rfl, ?_, rfl, rfl⟩
  intro p hp
  simp only [handleRequestSync, List.mem_singleton] at hp
  rw [hp]

/-- Adding an element to a JS set makes it a member. -/
theorem mem_setAdd_self (s : List String) (x : String) : x ∈ setAdd s x := by
  by_cases h : x ∈ s
  · simp [setAdd, h]
  · simp [setAdd, h]

/-- Deleting an element from a JS set removes it. -/
theorem not_mem_setDelete_self (s : List String) (x : String) :
    x ∉ setDelete s x := by
  simp [setDelete]

/-- Recording an identity on connection ws rewrites exactly the looked-up
client info at ws. -/
theorem mapGet_identify_upd (l : List (Nat × ClientInfo)) (ws : Nat)
    (uid dn : String) :
    mapGet (l.map (fun p =>
        if p.1 = ws then (p.1, { p.2 with userId := some uid, displayName := some dn })
        else p)) ws
      = (mapGet l ws).map
          (fun b => { b with userId := some uid, displayName := some dn }) := by
  induction l with
  | nil => rfl
  | cons p rest ih =>
    by_cases h : p.1 = ws
    · simp [mapGet, h]
    · simp [mapGet, h, ih]

/-- A broadcast with no sender reaches every connection. -/
theorem mem_broadcast_none (conns : List Nat) (m : ServerMsg) (c : Nat)
    (hc : c ∈ conns) : (c, m) ∈ broadcast conns none m := by
  simp only [broadcast, List.mem_map, List.mem_filter]
  exact ⟨c, ⟨hc, rfl⟩, rfl⟩

/-- A broadcast with a sender reaches every other connection. -/
theorem mem_broadcast_some (conns : List Nat) (m : ServerMsg) (ws c : Nat)
    (hc : c ∈ conns) (hne : c ≠ ws) : (c, m) ∈ broadcast conns (some ws) m := by
  simp only [broadcast, List.mem_map, List.mem_filter]
  refine ⟨c, ⟨hc, ?_⟩, rfl⟩
  have h : ws ≠ c := Ne.symm hne
  simpa using h

/-- C4 counterexample: in a Hub with connections 1 and 2, an identify sent on
connection 1 delivers the user_joined broadcast to connection 1 as well — the
sender is not excluded, because the identify case calls broadcast without a
sender argument. -/
theorem hub_identify_counterexample :
    (1, ServerMsg.userJoined "u1" "Ann" 1) ∈
      (handleIdentify ⟨[(1, ⟨"c1", none, none⟩), (2, ⟨"c2", none, none⟩)], [], []⟩
        1 "u1" "Ann").2 := by
  decide

/-- C4 amended: handling identify records userId and displayName on the
connection, adds userId to activeUsers, broadcasts user_joined to every
connection including the sender, and sends the identified reply to the sender
only. -/
theorem hub_identify_spec (s : HubState) (ws : Nat) (uid dn : String)
    (ci : ClientInfo) (hws : mapGet s.connections ws = some ci) :
    mapGet (handleIdentify s ws uid dn).1.connections ws
      = some { ci with userId := some uid, displayName := some dn }
    ∧ uid ∈ (handleIdentify s ws uid dn).1.activeUsers
    ∧ (∀ c ∈ (handleIdentify s ws uid dn).1.connections.map Prod.fst,
        (c, ServerMsg.userJoined uid dn
            (handleIdentify s ws uid dn).1.activeUsers.length)
          ∈ (handleIdentify s ws uid dn).2)
    ∧ (∀ p ∈ (handleIdentify s ws uid dn).2, p.2.isIdentified = true → p.1 = ws) := by
  refine ⟨?_, ?_, ?_, ?_⟩
  · simp only [handleIdentify]
    rw [mapGet_identify_upd, hws]
    rfl
  · exact mem_setAdd_self s.activeUsers uid
  · intro c hc
    simp only [handleIdentify] at hc ⊢
    exact List.mem_append_left _ (mem_broadcast_none _ _ c hc)
  · intro p hp hid
    simp only [handleIdentify, broadcast] at hp
    rcases List.mem_append.1 hp with h1 | h1
    · rcases List.mem_map.1 h1 with ⟨c0, hc0, hpe⟩
      rw [← hpe] at hid
      simp [ServerMsg.isIdentified] at hid
    · simp only [List.mem_singleton] at h1
      rw [h1]

/-- C4 amended witness: after identify on connection 1 the connection record
carries the identity. -/
theorem hub_identify_spec_witness :
    mapGet (handleIdentify
        ⟨[(1, ⟨"c1", none, none⟩), (2, ⟨"c2", none, none⟩)], [], []⟩
        1 "u1" "Ann").1.connections 1
      = some ⟨"c1", some "u1", some "Ann"⟩ := by
  have h := hub_identify_spec
      ⟨[(1, ⟨"c1", none, none⟩), (2, ⟨"c2", none, none⟩)], [], []⟩
      1 "u1" "Ann" ⟨"c1", none, none⟩ (by decide)
  exact h.1.trans (by decide)

/-- mapSet never produces the empty list. -/
theorem mapSet_ne_nil [DecidableEq α] (l : List (α × β)) (k : α) (v : β) :
    mapSet l k v ≠ [] := by
  cases l with
  | nil => simp [mapSet]
  | cons p rest => by_cases h : p.1 = k <;> simp [mapSet, h]

/-- Every entry of a map after mapSet is an old entry or the new one. -/
theorem mem_mapSet [DecidableEq α] (l : List (α × β)) (k : α) (v : β) :
    ∀ p ∈ mapSet l k v, p ∈ l ∨ p = (k, v) := by
  induction l with
  | nil =>
    intro p hp
    simp [mapSet] at hp
    right
    exact hp
  | cons q rest ih =>
    intro p hp
    by_cases h : q.1 = k
    · simp only [mapSet, if_pos h, List.mem_cons] at hp
      rcases hp with h1 | h1
      · right; exact h1
      · left; exact List.mem_cons_of_mem q h1
    · simp only [mapSet, if_neg h, List.mem_cons] at hp
      rcases hp with h1 | h1
      · left; simp [h1]
      · rcases ih p h1 with h2 | h2
        · left; exact List.mem_cons_of_mem q h2
        · right; exact h2

/-- Storing a submit_response never creates an empty per-question map, so the
invariant that every stored question entry is nonempty is preserved — this is
what lets a nonempty responses map stand for a nonempty flattened payload
(the retention sweep likewise deletes a question entry that becomes empty). -/
theorem handleSubmitResponse_inner_ne_nil (s : HubState) (ws : Nat)
    (m : SubmitMsg) (now : Nat) (hinv : ∀ q ∈ s.responses, q.2 ≠ []) :
    ∀ q ∈ (handleSubmitResponse s ws m now).1.responses, q.2 ≠ [] := by
  intro q hq
  simp only [handleSubmitResponse, cacheInsert] at hq
  rcases mem_mapSet _ _ _ q hq with h | h
  · exact hinv q h
  · rw [h]
    exact mapSet_ne_nil _ _ _

/-- In a responses map whose question entries are all nonempty, a nonempty
map flattens to a nonempty payload. -/
theorem flattenResponses_ne_nil (rs : List (String × List (String × Response)))
    (hinv : ∀ q ∈ rs, q.2 ≠ []) (hne : rs ≠ []) : flattenResponses rs ≠ [] := by
  cases rs with
  | nil => exact absurd rfl hne
  | cons q rest =>
    have h1 := hinv q (List.mem_cons_self q rest)
    cases hq : q.2 with
    | nil => exact absurd hq h1
    | cons a as => simp [flattenResponses, hq]

/-- C7: a newly accepted connection is sent — right after welcome and without
any request_sync from the client — a bulk_update holding every currently
stored Response, whenever the stored responses map is nonempty (with every
question entry nonempty, which submits preserve and the retention sweep
restores). -/
theorem hub_connection_proactive_sync (s : HubState) (ws : Nat) (cid : String)
    (now : Nat) (hinv : ∀ q ∈ s.responses, q.2 ≠ []) (hne : s.responses ≠ []) :
    (handleConnection s ws cid now).2
      = [(ws, ServerMsg.welcome cid now s.activeUsers.length),
         (ws, ServerMsg.bulkUpdate (flattenResponses s.responses))] := by
  have hflat := flattenResponses_ne_nil s.responses hinv hne
  have h1 : s.responses.length > 0 := List.length_pos.2 hne
  have h2 : (flattenResponses s.responses).length > 0 := List.length_pos.2 hflat
  simp [handleConnection, h1, h2]

/-- C7 witness: a hub holding one stored response greets connection 7 with
welcome followed by the proactive bulk_update of that response. -/
theorem hub_connection_proactive_sync_witness :
    (handleConnection
        ⟨[], ["u1"], [("Q1", [("u1", ⟨"Q1", "A", "", "u1", "Ann", 5⟩)])]⟩
        7 "c7" 99).2
      = [(7, ServerMsg.welcome "c7" 99 1),
         (7, ServerMsg.bulkUpdate [⟨"Q1", "A", "", "u1", "Ann", 5⟩])] := by
  have h := hub_connection_proactive_sync
      ⟨[], ["u1"], [("Q1", [("u1", ⟨"Q1", "A", "", "u1", "Ann", 5⟩)])]⟩ 7 "c7" 99
      (by decide) (by decide)
  exact h.trans (by decide)

/-- C8: when a connection closes, the connection entry is always removed and
the stored responses map is left unchanged — no Response submitted by the
departing user is deleted — and if the connection had an identified userId,
that userId is removed from activeUsers and user_disconnected is broadcast to
every remaining connection. -/
theorem hub_close_spec (s : HubState) (ws : Nat) (ci : ClientInfo)
    (hws : mapGet s.connections ws = some ci) :
    (handleClose s ws).1.connections = s.connections.filter (fun p => p.1 != ws)
    ∧ (handleClose s ws).1.responses = s.responses
    ∧ (∀ uid, ci.userId = some uid →
        uid ∉ (handleClose s ws).1.activeUsers
        ∧ ∀ c ∈ s.connections.map Prod.fst, c ≠ ws →
            (c, ServerMsg.userDisconnected uid ci.displayName
                (handleClose s ws).1.activeUsers.length) ∈ (handleClose s ws).2) := by
  cases hci : ci.userId with
  | some uid0 =>
    refine ⟨?_, ?_, ?_⟩
    · simp [handleClose, hws, hci]
    · simp [handleClose, hws, hci]
    · intro uid h
      injection h with h2
      constructor
      · rw [← h2]
        simp [handleClose, hws, hci, not_mem_setDelete_self]
      · intro c hc hcne
        rw [← h2]
        simp only [handleClose, hws, hci]
        exact mem_broadcast_some _ _ ws c hc hcne
  | none =>
    refine ⟨?_, ?_, ?_⟩
    · simp [handleClose, hws, hci]
    · simp [handleClose, hws, hci]
    · intro uid h
      exact Option.noConfusion h

/-- C8 witness: closing identified connection 1 leaves its stored response in
place. -/
theorem hub_close_spec_witness :
    (handleClose
        ⟨[(1, ⟨"c1", some "u1", some "Ann"⟩), (2, ⟨"c2", none, none⟩)],
         ["u1"], [("Q1", [("u1", ⟨"Q1", "A", "", "u1", "Ann", 5⟩)])]⟩ 1).1.responses
      = [("Q1", [("u1", ⟨"Q1", "A", "", "u1", "Ann", 5⟩)])] := by
  have h := hub_close_spec
      ⟨[(1, ⟨"c1", some "u1", some "Ann"⟩), (2, ⟨"c2", none, none⟩)],
       ["u1"], [("Q1", [("u1", ⟨"Q1", "A", "", "u1", "Ann", 5⟩)])]⟩ 1
      ⟨"c1", some "u1", some "Ann"⟩ (by decide)
  exact h.2.1

/-- C9 witness: a request_sync on a hub holding one response leaves the state
literally unchanged. -/
theorem hub_request_sync_spec_witness :
    (handleRequestSync
        ⟨[], ["u1"], [("Q1", [("u1", ⟨"Q1", "A", "", "u1", "Ann", 5⟩)])]⟩ 3 11).1
      = ⟨[], ["u1"], [("Q1", [("u1", ⟨"Q1", "A", "", "u1", "Ann", 5⟩)])]⟩ :=
  (hub_request_sync_spec
    ⟨[], ["u1"], [("Q1", [("u1", ⟨"Q1", "A", "", "u1", "Ann", 5⟩)])]⟩ 3 11 12).1
